import Mathlib

set_option autoImplicit false

/-
Verification of the JayDL media-retrieval backend (src/backend/app.py).
The Python code is shallowly embedded: each definition below is translated from
the corresponding Python function; network calls and subprocess invocations
are supplied as explicit oracle parameters.
-/

/-! ## Python string primitives, modelled on lists of characters -/

/-- Bool test: pat is a prefix of l. -/
def startsWithL : List Char → List Char → Bool
  | [], _ => true
  | _ :: _, [] => false
  | p :: ps, c :: cs => p == c && startsWithL ps cs

/-- Bool test: pat occurs as a contiguous substring of l (Python in operator). -/
def containsL : List Char → List Char → Bool
  | [], pat => startsWithL pat []
  | c :: cs, pat => startsWithL pat (c :: cs) || containsL cs pat

/-- Split l at the first occurrence of pat: returns the part before and,
when pat occurs, the part after it. -/
def splitFirstL (l pat : List Char) : List Char × Option (List Char) :=
  match l with
  | [] => ([], none)
  | c :: cs =>
    if startsWithL pat (c :: cs) then ([], some ((c :: cs).drop pat.length))
    else
      let r := splitFirstL cs pat
      (c :: r.1, r.2)

/-- Python str.split(sep) for a one-character separator: keeps empty pieces. -/
def splitCharL (l : List Char) (sep : Char) : List (List Char) :=
  match l with
  | [] => [[]]
  | c :: cs =>
    let r := splitCharL cs sep
    if c == sep then [] :: r
    else
      match r with
      | [] => [[c]]
      | h :: t => (c :: h) :: t

/-- Take characters until one satisfies p; also return the rest (delimiter kept). -/
def takeUntilL (p : Char → Bool) : List Char → List Char × List Char
  | [] => ([], [])
  | c :: cs =>
    if p c then ([], c :: cs)
    else
      let r := takeUntilL p cs
      (c :: r.1, r.2)

/-- Python str.strip(ch): remove the character ch from both ends. -/
def stripCharL (l : List Char) (ch : Char) : List Char :=
  ((l.dropWhile (· == ch)).reverse.dropWhile (· == ch)).reverse

/-- Python str.strip(): remove whitespace from both ends. -/
def stripWSL (l : List Char) : List Char :=
  ((l.dropWhile Char.isWhitespace).reverse.dropWhile Char.isWhitespace).reverse

/-- Python str.lower(), for the ASCII range used by the code. -/
def lowerL (l : List Char) : List Char :=
  l.map Char.toLower

/-- Python substring test on strings. -/
def strContains (s pat : String) : Bool :=
  containsL s.data pat.data

/-- Python str.lower() as a String operation. -/
def pyLower (s : String) : String :=
  ⟨lowerL s.data⟩

/-- Python str.upper() as a String operation, for the ASCII range used here. -/
def pyUpper (s : String) : String :=
  ⟨s.data.map Char.toUpper⟩

/-- Python truthiness of an optional string: None and the empty string are falsy. -/
def pyTruthy : Option String → Bool
  | none => false
  | some s => !s.data.isEmpty

/-! ## URL parsing (urllib.parse.urlparse subset) -/

structure ParsedUrl where
  netloc : String
  path : String
  query : String
  deriving Repr, DecidableEq

/-- Model of the relevant subset of urlparse: splits an absolute http(s)-style
URL, or a scheme-less string, into netloc, path and query.  The fragment is cut
at the first hash character.  Assumes that the scheme separator, when present,
occurs before any slash or question mark, which holds for every URL shape the
code handles. -/
def urlparse (url : String) : ParsedUrl :=
  let noFrag := (splitFirstL url.data ("#".data)).1
  match (splitFirstL noFrag ("://".data)).2 with
  | some rest =>
    let nr := takeUntilL (fun c => c == '/' || c == '?') rest
    let pq := splitFirstL nr.2 ("?".data)
    ⟨⟨nr.1⟩, ⟨pq.1⟩, ⟨pq.2.getD []⟩⟩
  | none =>
    let pq := splitFirstL noFrag ("?".data)
    ⟨"", ⟨pq.1⟩, ⟨pq.2.getD []⟩⟩

/-- Model of parse_qs(query).get(key v, [None])[0], restricted to queries
without percent escapes or plus signs (identity under url-decoding): split on
ampersands, keep components with a nonempty value, return the first value bound
to v. -/
def parse_qs_first_v (query : String) : Option String :=
  let comps := splitCharL query.data '&'
  let vals := comps.filterMap (fun comp =>
    match splitFirstL comp ("=".data) with
    | (k, some v) => if k == "v".data && !v.isEmpty then some v else none
    | (_, none) => none)
  vals.head?.map (fun l => ⟨l⟩)

/-! ## InvidiousDownloader._extract_video_id and detect_platform -/

/-- Model of InvidiousDownloader._extract_video_id.  Returns none where the
Python code returns None and some of the returned string otherwise (the
youtu.be branch can return an empty string).  The Python try/except wrapper
maps any exception to None; the embedded operations are total. -/
def extract_video_id (url : String) : Option String :=
  let p := urlparse url
  if strContains p.netloc "youtube.com" then parse_qs_first_v p.query
  else if strContains p.netloc "youtu.be" then some ⟨stripCharL p.path.data '/'⟩
  else if strContains p.path "shorts" then some ⟨(splitCharL p.path.data '/').getLastD []⟩
  else none

/-- Model of InvidiousDownloader.detect_platform. -/
def detect_platform (url : String) : String :=
  let u : String := ⟨lowerL url.data⟩
  if strContains u "youtube.com" || strContains u "youtu.be" then "youtube"
  else if strContains u "tiktok.com" then "tiktok"
  else if strContains u "instagram.com" then "instagram"
  else if strContains u "twitter.com" || strContains u "x.com" then "twitter"
  else if strContains u "spotify.com" then "spotify"
  else "generic"

example : extract_video_id "https://www.youtube.com/watch?v=dQw4w9WgXcQ" = some "dQw4w9WgXcQ" := by decide
example : extract_video_id "https://youtu.be/dQw4w9WgXcQ" = some "dQw4w9WgXcQ" := by decide
example : extract_video_id "https://www.youtube.com/shorts/dQw4w9WgXcQ" = none := by decide
example : extract_video_id "https://example.com/other" = none := by decide
example : detect_platform "https://open.spotify.com/track/x" = "spotify" := by decide

/-! ## FormatNormalizer: _get_default_formats and _get_available_formats -/

/-- A JSON-ish scalar, used for the heterogeneous filesize field which the
Python code fills with either an integer, the string Unknown, a pass-through
string from the upstream response, or null. -/
inductive JVal where
  | jnum (n : Nat)
  | jstr (s : String)
  | jnull
  deriving Repr, DecidableEq

/-- One raw entry of the yt-dlp formats array, with optional fields modelling
dict.get on the keys the code reads. -/
structure RawFmt where
  vcodec : Option String := none
  acodec : Option String := none
  height : Option Nat := none
  ext : Option String := none
  filesize : Option Nat := none
  filesize_approx : Option Nat := none
  format_id : Option String := none
  deriving Repr, DecidableEq

/-- One entry of the format lists the code builds (a Python dict; absent keys
are modelled as none / default values). -/
structure OutFmt where
  format_id : String
  resolution : Option String := none
  format : Option String := none
  height : Option Nat := none
  filesize : JVal := JVal.jnull
  type : String
  container : Option String := none
  url : String := ""
  deriving Repr, DecidableEq

/-- Python expression a or b or 0 on optional integers (0 and None are falsy). -/
def pyOrNat (a b : Option Nat) : Nat :=
  let x := a.getD 0
  if x ≠ 0 then x else b.getD 0

/-- Insertion-ordered map from container name to largest observed filesize. -/
abbrev ContainerMap := List (String × Nat)

/-- Insertion-ordered map from height to its container map. -/
abbrev HeightsMap := List (Nat × ContainerMap)

/-- available_heights[height][container] update: write only when the container
is new or the new filesize is strictly larger. -/
def setMaxSize (m : ContainerMap) (c : String) (fs : Nat) : ContainerMap :=
  match m with
  | [] => [(c, fs)]
  | (c0, v) :: rest =>
    if c0 == c then (if fs > v then (c0, fs) else (c0, v)) :: rest
    else (c0, v) :: setMaxSize rest c fs

/-- available_heights update at a given height. -/
def setHeight (hs : HeightsMap) (h : Nat) (c : String) (fs : Nat) : HeightsMap :=
  match hs with
  | [] => [(h, [(c, fs)])]
  | (h0, m) :: rest =>
    if h0 == h then (h0, setMaxSize m c fs) :: rest
    else (h0, m) :: setHeight rest h c fs

/-- audio_formats[format_id] = filesize: unconditional insertion-ordered write. -/
def setAudio (m : ContainerMap) (k : String) (fs : Nat) : ContainerMap :=
  match m with
  | [] => [(k, fs)]
  | (k0, v) :: rest => if k0 == k then (k0, fs) :: rest else (k0, v) :: setAudio rest k fs

/-- Lookup in a container map. -/
def lookupC (m : ContainerMap) (c : String) : Option Nat :=
  match m with
  | [] => none
  | (c0, v) :: rest => if c0 == c then some v else lookupC rest c

/-- Lookup in the heights map. -/
def lookupHeight (hs : HeightsMap) (h : Nat) : Option ContainerMap :=
  match hs with
  | [] => none
  | (h0, m) :: rest => if h0 == h then some m else lookupHeight rest h

/-- Scan state of the for-loop over the raw formats array. -/
structure FmtScan where
  heights : HeightsMap := []
  audio : ContainerMap := []
  audioAvailable : Bool := false
  deriving Repr

/-- Body of the for-loop over formats_data. -/
def scanStep (st : FmtScan) (f : RawFmt) : FmtScan :=
  let newHeights :=
    setHeight st.heights (f.height.getD 0) (pyLower (f.ext.getD "mp4"))
      (pyOrNat f.filesize f.filesize_approx)
  let st1 :=
    if f.vcodec != some "none" && (f.height.getD 0) != 0 then
      { st with heights := newHeights }
    else st
  let newAudio := setAudio st1.audio (f.format_id.getD "audio") (pyOrNat f.filesize f.filesize_approx)
  if f.acodec != some "none" && f.vcodec == some "none" then
    { st1 with audioAvailable := true, audio := newAudio }
  else st1

/-- The fixed quality ladder of the code. -/
def quality_options : List (String × String × Nat) :=
  [("2160", "2160p (4K)", 2160), ("1440", "1440p (2K)", 1440),
   ("1080", "1080p (Full HD)", 1080), ("720", "720p (HD)", 720),
   ("480", "480p", 480), ("360", "360p", 360)]

/-- filesize if filesize > 0 else Unknown. -/
def sizeJ (fs : Nat) : JVal :=
  if fs > 0 then JVal.jnum fs else JVal.jstr "Unknown"

/-- Per-quality video entries, one per available container at that height. -/
def video_entries (hs : HeightsMap) : List OutFmt :=
  quality_options.flatMap (fun q =>
    match lookupHeight hs q.2.2 with
    | none => []
    | some m => m.map (fun cf =>
        { format_id := q.1, resolution := some q.2.1, height := some q.2.2,
          filesize := sizeJ cf.2, format := some q.2.1, type := "video",
          container := some cf.1, url := "" }))

/-- Deduplicate keeping first occurrences; models the iteration over the Python
set of containers (whose order is unspecified; no theorem below depends on the
order of the best-quality entries). -/
def dedupFirstAux (seen : List String) : List String → List String
  | [] => []
  | x :: xs =>
    if seen.contains x then dedupFirstAux seen xs
    else x :: dedupFirstAux (x :: seen) xs

/-- Deduplicate a list of container names, keeping first occurrences. -/
def dedupFirst (l : List String) : List String :=
  dedupFirstAux [] l

/-- All containers appearing in the heights map. -/
def allContainers (hs : HeightsMap) : List String :=
  dedupFirst (hs.flatMap (fun hm => hm.2.map Prod.fst))

/-- Largest filesize observed for a container across all heights. -/
def best_size (hs : HeightsMap) (c : String) : Nat :=
  hs.foldl (fun acc hm =>
    match lookupC hm.2 c with
    | some v => max acc v
    | none => acc) 0

/-- The per-container best-quality entries (emitted only when some video
height is available). -/
def best_entries (hs : HeightsMap) : List OutFmt :=
  if hs.isEmpty then []
  else (allContainers hs).map (fun c =>
    { format_id := c, resolution := some (pyUpper c ++ " (Best)"), height := some 0,
      filesize := sizeJ (best_size hs c), format := some (pyUpper c ++ " (Best)"),
      type := "video", container := some c, url := "" })

/-- The three audio entries, emitted only when an audio-only format exists. -/
def audio_entries (audioAvailable : Bool) (audio : ContainerMap) : List OutFmt :=
  if audioAvailable then
    let ba := (lookupC audio "bestaudio").getD 0
    let maxv := audio.foldl (fun acc kv => max acc kv.2) 0
    let bestaudio_size := if !audio.isEmpty then (if ba ≠ 0 then ba else maxv) else 0
    [ { format_id := "bestaudio", resolution := some "Best Audio", height := some 0,
        filesize := sizeJ bestaudio_size, format := some "Best Audio", type := "audio", url := "" },
      { format_id := "192", resolution := some "192 kbps", height := some 0,
        filesize := JVal.jstr "Unknown", format := some "192 kbps", type := "audio", url := "" },
      { format_id := "128", resolution := some "128 kbps", height := some 0,
        filesize := JVal.jstr "Unknown", format := some "128 kbps", type := "audio", url := "" } ]
  else []

/-- The formats list built from a parsed yt-dlp dump, before the final
default fallback. -/
def buildFormats (l : List RawFmt) : List OutFmt :=
  let st := l.foldl scanStep {}
  video_entries st.heights ++ best_entries st.heights ++ audio_entries st.audioAvailable st.audio

/-- Model of InvidiousDownloader._get_default_formats. -/
def default_formats : List OutFmt :=
  [ { format_id := "2160", resolution := some "2160p (4K)", height := some 2160,
      filesize := JVal.jstr "Unknown", format := some "2160p (4K)", type := "video",
      container := some "mp4", url := "" },
    { format_id := "1440", resolution := some "1440p (2K)", height := some 1440,
      filesize := JVal.jstr "Unknown", format := some "1440p (2K)", type := "video",
      container := some "mp4", url := "" },
    { format_id := "1080", resolution := some "1080p (Full HD)", height := some 1080,
      filesize := JVal.jstr "Unknown", format := some "1080p (Full HD)", type := "video",
      container := some "mp4", url := "" },
    { format_id := "720", resolution := some "720p (HD)", height := some 720,
      filesize := JVal.jstr "Unknown", format := some "720p (HD)", type := "video",
      container := some "mp4", url := "" },
    { format_id := "480", resolution := some "480p", height := some 480,
      filesize := JVal.jstr "Unknown", format := some "480p", type := "video",
      container := some "mp4", url := "" },
    { format_id := "360", resolution := some "360p", height := some 360,
      filesize := JVal.jstr "Unknown", format := some "360p", type := "video",
      container := some "mp4", url := "" },
    { format_id := "mp4", resolution := some "MP4 (Best)", height := some 0,
      filesize := JVal.jstr "Unknown", format := some "MP4 (Best)", type := "video",
      container := some "mp4", url := "" },
    { format_id := "bestaudio", resolution := some "Best Audio", height := some 0,
      filesize := JVal.jstr "Unknown", format := some "Best Audio", type := "audio", url := "" },
    { format_id := "192", resolution := some "192 kbps", height := some 0,
      filesize := JVal.jstr "Unknown", format := some "192 kbps", type := "audio", url := "" },
    { format_id := "128", resolution := some "128 kbps", height := some 0,
      filesize := JVal.jstr "Unknown", format := some "128 kbps", type := "audio", url := "" } ]

/-- Model of InvidiousDownloader._get_available_formats.  The probe argument is
none when the yt-dlp subprocess fails (nonzero exit code, timeout, or an
unparseable dump, all of which the code turns into the default list) and some
of the parsed formats array otherwise. -/
def get_available_formats (probe : Option (List RawFmt)) : List OutFmt :=
  match probe with
  | none => default_formats
  | some l =>
    let f := buildFormats l
    if f.isEmpty then default_formats else f

/-- A raw yt-dlp video format entry with the given height, container and size. -/
def rawVid (h : Nat) (c : String) (s : Nat) : RawFmt :=
  { vcodec := some "avc1", height := some h, ext := some c, filesize := some s }

example : get_available_formats none = default_formats := rfl
example : get_available_formats (some []) = default_formats := rfl
example :
    (get_available_formats (some [rawVid 720 "mp4" 100, rawVid 720 "mp4" 250])).filter
      (fun e => e.height == some 720) =
    [{ format_id := "720", resolution := some "720p (HD)", height := some 720,
       filesize := JVal.jnum 250, format := some "720p (HD)", type := "video",
       container := some "mp4", url := "" }] := by decide
example :
    (get_available_formats (some [rawVid 144 "mp4" 100, rawVid 144 "mp4" 250])).filter
      (fun e => e.height == some 144) = [] := by decide

/-! ## Duration formatting -/

/-- Decimal rendering of a natural number. -/
def natStr (n : Nat) : String :=
  ⟨Nat.toDigits 10 n⟩

/-- Two-digit zero padding. -/
def pad2 (n : Nat) : String :=
  if n < 10 then "0" ++ natStr n else natStr n

/-- Model of InvidiousDownloader._format_duration on integer seconds. -/
def format_duration (seconds : Nat) : String :=
  if seconds == 0 then "Unknown"
  else
    let hours := seconds / 3600
    let minutes := (seconds % 3600) / 60
    let secs := seconds % 60
    if hours > 0 then natStr hours ++ ":" ++ pad2 minutes ++ ":" ++ pad2 secs
    else natStr minutes ++ ":" ++ pad2 secs

/-! ## Invidious / Piped response parsing and the resolution orchestrator -/

/-- The uniform result dictionary the resolution functions return. -/
structure VideoInfo where
  success : Bool
  title : String := ""
  duration : String := ""
  thumbnail : String := ""
  uploader : String := ""
  view_count : Nat := 0
  formats : List OutFmt := []
  platform : String := ""
  video_id : Option String := none
  source : Option String := none
  error : Option String := none
  deriving Repr, DecidableEq

/-- One stream object of an Invidious videos response (formatStreams or
adaptiveFormats element), with dict.get modelled by optional fields. -/
structure InvStream where
  type : Option String := none
  qualityLabel : Option String := none
  size : Option String := none
  container : Option String := none
  url : Option String := none
  audioQuality : Option String := none
  encoding : Option String := none
  deriving Repr, DecidableEq

/-- The parts of an Invidious videos response the code reads.  This models the
well-typed responses; a response whose fields have unexpected types makes the
Python parser throw and is outside this embedding. -/
structure InvData where
  title : Option String := none
  lengthSeconds : Option Nat := none
  author : Option String := none
  viewCount : Option Nat := none
  formatStreams : List InvStream := []
  adaptiveFormats : List InvStream := []
  deriving Repr, DecidableEq

/-- Python str() of an optional string: None prints as the word None. -/
def pyStrOpt : Option String → String
  | none => "None"
  | some s => s

/-- One formatStreams entry of _parse_invidious_response: kept when its type
contains the word video and its url is truthy. -/
def inv_video_fmt (s : InvStream) : Option OutFmt :=
  if containsL (s.type.getD "").data "video".data && pyTruthy s.url then
    some { format_id := "invidious_" ++ pyStrOpt s.qualityLabel,
           resolution := s.qualityLabel,
           filesize := (match s.size with | some z => JVal.jstr z | none => JVal.jnull),
           type := "video", container := s.container, url := s.url.getD "" }
  else none

/-- One adaptiveFormats entry of _parse_invidious_response: kept when its type
equals audio and its url is truthy. -/
def inv_audio_fmt (s : InvStream) : Option OutFmt :=
  if (s.type.getD "") == "audio" && pyTruthy s.url then
    some { format_id := "invidious_audio_" ++ pyStrOpt s.audioQuality,
           format := some ("Audio (" ++ pyStrOpt s.encoding ++ ")"),
           resolution := some ("Audio (" ++ pyStrOpt s.audioQuality ++ ")"),
           filesize := (match s.size with | some z => JVal.jstr z | none => JVal.jnull),
           type := "audio", container := s.container, url := s.url.getD "" }
  else none

/-- The native direct-url formats _parse_invidious_response extracts from an
Invidious response. -/
def invNativeFormats (d : InvData) : List OutFmt :=
  d.formatStreams.filterMap inv_video_fmt ++ d.adaptiveFormats.filterMap inv_audio_fmt

/-- Model of InvidiousDownloader._parse_invidious_response.  ytProbe stands for
the yt-dlp format discovery subprocess used when the response carries no native
stream urls. -/
def parse_invidious_response (d : InvData) (video_id : String)
    (ytProbe : Option (List RawFmt)) : VideoInfo :=
  let fmts := invNativeFormats d
  let base : VideoInfo :=
    { success := true,
      title := d.title.getD ("Video " ++ (⟨video_id.data.take 8⟩ : String) ++ "..."),
      duration := format_duration (d.lengthSeconds.getD 0),
      thumbnail := "https://i.ytimg.com/vi/" ++ video_id ++ "/maxresdefault.jpg",
      uploader := d.author.getD "Unknown",
      view_count := d.viewCount.getD 0,
      platform := "youtube", video_id := some video_id }
  if fmts.isEmpty then
    { base with formats := get_available_formats ytProbe, source := some "yt-dlp" }
  else
    { base with formats := fmts, source := some "invidious" }

/-- The parts of a Piped streams response the code reads. -/
structure PipedData where
  title : Option String := none
  duration : Option Nat := none
  uploader : Option String := none
  views : Option Nat := none
  thumbnailUrl : Option String := none
  deriving Repr, DecidableEq

/-- Model of InvidiousDownloader._parse_piped_response.  Piped supplies only
metadata, so formats always come from the yt-dlp probe and the source tag is
piped. -/
def parse_piped_response (d : PipedData) (video_id : String)
    (ytProbe : Option (List RawFmt)) : VideoInfo :=
  { success := true,
    title := d.title.getD ("Video " ++ (⟨video_id.data.take 8⟩ : String) ++ "..."),
    duration := format_duration (d.duration.getD 0),
    uploader := d.uploader.getD "Unknown",
    view_count := d.views.getD 0,
    thumbnail := d.thumbnailUrl.getD ("https://i.ytimg.com/vi/" ++ video_id ++ "/maxresdefault.jpg"),
    formats := get_available_formats ytProbe,
    platform := "youtube", video_id := some video_id, source := some "piped" }

/-- Result of a subprocess.run call: exit code, stdout and stderr. -/
structure SubprocResult where
  returncode : Int
  stdout : String := ""
  stderr : String := ""
  deriving Repr, DecidableEq

/-- The fields of a parsed yt-dlp JSON dump that the info paths read. -/
structure YtdlpInfo where
  title : Option String := none
  duration : Option Nat := none
  uploader : Option String := none
  channel : Option String := none
  creator : Option String := none
  uploader_id : Option String := none
  view_count : Option Nat := none
  thumbnail : Option String := none
  thumbnailsFirstUrl : Option String := none
  thumb : Option String := none
  deriving Repr, DecidableEq

/-- Python str.strip() as a String operation. -/
def pyStrip (s : String) : String :=
  ⟨stripWSL s.data⟩

/-- Model of InvidiousDownloader._get_fallback_info.  r is the yt-dlp dump-json
subprocess result; parsed is the outcome of json.loads on its stdout (none for
unparseable output).  The TimeoutExpired and generic exception branches return
fixed messages carrying no stderr and are not modelled. -/
def get_fallback_info (r : SubprocResult) (parsed : Option YtdlpInfo)
    (ytProbe : Option (List RawFmt)) (video_id : String) : VideoInfo :=
  let error_msg :=
    if r.stderr.data.isEmpty then "yt-dlp fallback failed to produce valid JSON output."
    else pyStrip r.stderr
  let fail : VideoInfo := { success := false, error := some error_msg }
  if r.returncode == 0 && !r.stdout.data.isEmpty then
    match parsed with
    | none => fail
    | some d =>
      match d.title with
      | none => fail
      | some t =>
        if t.data.isEmpty then fail
        else
          { success := true, title := t,
            duration := format_duration (d.duration.getD 0),
            thumbnail := "https://i.ytimg.com/vi/" ++ video_id ++ "/maxresdefault.jpg",
            uploader := d.uploader.getD (d.channel.getD (d.creator.getD "Unknown")),
            view_count := d.view_count.getD 0,
            formats := get_available_formats ytProbe,
            platform := "youtube", video_id := some video_id,
            source := some "yt-dlp-fallback" }
  else fail

/-- Model of InvidiousDownloader._get_generic_platform_info for the non-Spotify
platforms: a yt-dlp dump-json probe whose failure modes all surface fixed
generic messages. -/
def get_generic_platform_info (_url platform : String) (r : SubprocResult)
    (parsed : Option YtdlpInfo) (ytProbe : Option (List RawFmt)) : VideoInfo :=
  if r.returncode != 0 then
    { success := false,
      error := some ("Unable to access this " ++ platform ++ " content. It may be private, deleted, or require authentication.") }
  else if (stripWSL r.stdout.data).isEmpty then
    { success := false,
      error := some ("Unable to access this " ++ platform ++ " content. It may be private or unavailable.") }
  else
    match parsed with
    | none =>
      { success := false,
        error := some ("Unable to parse " ++ platform ++ " content. Please try a different link.") }
    | some d =>
      let uploader :=
        if platform == "tiktok" then d.uploader.getD (d.creator.getD "Unknown")
        else if platform == "instagram" then d.uploader.getD (d.creator.getD (d.channel.getD "Unknown"))
        else if platform == "twitter" then d.uploader.getD (d.uploader_id.getD "Unknown")
        else d.uploader.getD "Unknown"
      let t0 := d.thumbnail.getD ""
      let t1 := if t0.data.isEmpty then d.thumbnailsFirstUrl.getD "" else t0
      let t2 := if t1.data.isEmpty then d.thumb.getD "" else t1
      { success := true, title := d.title.getD "Unknown Title",
        duration := format_duration (d.duration.getD 0),
        thumbnail := t2, uploader := uploader,
        view_count := d.view_count.getD 0,
        formats := get_available_formats ytProbe,
        platform := platform }

/-- Model of InvidiousDownloader._search_invidious_by_title.  titleProbe is the
outcome of the lightweight yt-dlp title call (none when it fails or yields an
empty title); searchFound is the videos response of the first instance whose
search results contain the wanted video id (none when no instance matches). -/
def search_invidious_by_title (titleProbe : Option String) (searchFound : Option InvData)
    (video_id : String) (ytProbe : Option (List RawFmt)) : Option VideoInfo :=
  match titleProbe with
  | none => none
  | some _ =>
    match searchFound with
    | none => none
    | some d =>
      let r := parse_invidious_response d video_id ytProbe
      some (if r.success then { r with source := some "invidious-search" } else r)

/-- The oracle environment of one get_video_info call: each field is the
outcome of one network or subprocess interaction the call may perform. -/
structure ResolveEnv where
  url : String
  primary : Option InvData := none
  piped : Option PipedData := none
  searchTitle : Option String := none
  searchFound : Option InvData := none
  fallbackSub : SubprocResult := { returncode := 1 }
  fallbackParsed : Option YtdlpInfo := none
  ytProbe : Option (List RawFmt) := none
  genericSub : SubprocResult := { returncode := 1 }
  genericParsed : Option YtdlpInfo := none
  spotifyResult : VideoInfo := { success := false }
  deriving Repr

/-- The four fallback tiers of the YouTube resolution chain. -/
inductive Tier where
  | primaryDirect
  | secondaryMetadata
  | identitySearch
  | extractionFallback
  deriving Repr, DecidableEq

/-- Strategies 2 to 4 of get_video_info, tried when the Invidious direct
lookup did not win. -/
def try_piped_onward (env : ResolveEnv) (vid : String) : VideoInfo :=
  match env.piped with
  | some d => parse_piped_response d vid env.ytProbe
  | none =>
    match search_invidious_by_title env.searchTitle env.searchFound vid env.ytProbe with
    | some r => r
    | none => get_fallback_info env.fallbackSub env.fallbackParsed env.ytProbe vid

/-- Model of InvidiousDownloader.get_video_info. -/
def get_video_info (env : ResolveEnv) : VideoInfo :=
  let platform := detect_platform env.url
  if platform == "youtube" then
    let vid? := extract_video_id env.url
    if pyTruthy vid? then
      let vid := vid?.getD ""
      match env.primary.map (fun d => parse_invidious_response d vid env.ytProbe) with
      | some r => if r.source == some "invidious" then r else try_piped_onward env vid
      | none => try_piped_onward env vid
    else { success := false, error := some "Invalid YouTube URL" }
  else if platform == "spotify" then env.spotifyResult
  else get_generic_platform_info env.url platform env.genericSub env.genericParsed env.ytProbe

/-- The list of tiers a get_video_info call consults, in order, for a
YouTube url; mirrors the control flow of get_video_info. -/
def tiersAttempted (env : ResolveEnv) : List Tier :=
  if detect_platform env.url == "youtube" then
    let vid? := extract_video_id env.url
    if pyTruthy vid? then
      let vid := vid?.getD ""
      let primaryHit :=
        match env.primary.map (fun d => parse_invidious_response d vid env.ytProbe) with
        | some r => r.source == some "invidious"
        | none => false
      if primaryHit then [Tier.primaryDirect]
      else if env.piped.isSome then [Tier.primaryDirect, Tier.secondaryMetadata]
      else if (search_invidious_by_title env.searchTitle env.searchFound vid env.ytProbe).isSome then
        [Tier.primaryDirect, Tier.secondaryMetadata, Tier.identitySearch]
      else
        [Tier.primaryDirect, Tier.secondaryMetadata, Tier.identitySearch, Tier.extractionFallback]
    else []
  else []

/-! ## SpotifyRateLimitTracker -/

/-- The daily Spotify cap the tracker is constructed with. -/
def spotify_limit_per_day : Nat := 20

/-- The persisted rate limiter state: date line and count line of the file. -/
structure RLState where
  last_reset_date : String
  download_count : Nat
  deriving Repr, DecidableEq

/-- Model of SpotifyRateLimitTracker.load_state.  The file is none when
missing, malformed or unreadable (each of which resets the state); a persisted
date different from today also resets the count to zero. -/
def load_state (file : Option RLState) (today : String) : RLState :=
  match file with
  | none => ⟨today, 0⟩
  | some st => if st.last_reset_date ≠ today then ⟨today, 0⟩ else st

/-- Model of SpotifyRateLimitTracker.increment_and_check: reload the state,
increment, persist, and return (is_at_limit, remaining) together with the
newly persisted state. -/
def increment_and_check (file : Option RLState) (today : String) : (Bool × Int) × RLState :=
  let st := load_state file today
  let c := st.download_count + 1
  ((decide (spotify_limit_per_day ≤ c), max 0 ((spotify_limit_per_day : Int) - (c : Int))),
   ⟨st.last_reset_date, c⟩)

/-- n consecutive increment_and_check calls against the same persisted file,
each reading the state the previous call saved. -/
def rlCalls : Nat → RLState → String → List (Bool × Int) × RLState
  | 0, st, _ => ([], st)
  | n + 1, st, today =>
    let r := increment_and_check (some st) today
    let rest := rlCalls n r.2 today
    (r.1 :: rest.1, rest.2)

/-! ## Download results -/

/-- The dictionary shape of the download entry points.  file_size carries the
raw byte count; the human rendering via format_file_size uses floating point
and stays outside the model. -/
structure DLResult where
  success : Bool
  title : Option String := none
  filename : Option String := none
  filepath : Option String := none
  file_size : Option Nat := none
  download_url : Option String := none
  platform : Option String := none
  media_type : Option String := none
  quality : Option String := none
  message : Option String := none
  error : Option String := none
  need_browser_login : Bool := false
  rate_limit_hit : Bool := false
  remaining_downloads : Option Int := none
  resets_at : Option String := none
  deriving Repr, DecidableEq

/-- Python expression a or b on an optional string and a default. -/
def pyOrStr (a : Option String) (b : String) : String :=
  match a with
  | some s => if s.data.isEmpty then b else s
  | none => b

/-- The RapidAPI characters re.sub replaces in filenames. -/
def forbiddenFilenameChars : List Char :=
  ['<', '>', ':', '\"', '/', '\\', '|', '?', '*']

/-- Filename sanitization of _download_spotify. -/
def sanitizeFilename (s : String) : String :=
  ⟨s.data.map (fun c => if forbiddenFilenameChars.contains c then '_' else c)⟩

/-- Oracle outcomes of the outbound HTTP interactions _download_spotify can
perform: the RapidAPI metadata call and the file fetch. -/
structure SpotifyEnv where
  rapidapi_key : Option String := none
  api_status : Nat := 0
  api_success : Bool := false
  api_download_link : Option String := none
  api_title : Option String := none
  api_artist : Option String := none
  api_error : Option String := none
  api_message : Option String := none
  file_status : Nat := 0
  file_bytes : Nat := 0
  deriving Repr

/-- Model of InvidiousDownloader._download_spotify.  Returns the result, the
persisted rate limiter state after the call, and the number of outbound HTTP
requests performed during the call.  The requests.Timeout branch returns a
fixed message and is not modelled. -/
def download_spotify (file : Option RLState) (today : String) (env : SpotifyEnv) :
    DLResult × RLState × Nat :=
  let r := increment_and_check file today
  let st := r.2
  if r.1.1 then
    ({ success := false,
       error := some "Spotify rate limit reached (20 downloads per day)",
       rate_limit_hit := true, remaining_downloads := some 0,
       resets_at := some (today ++ " 00:00:00 (next day)") }, st, 0)
  else
    match env.rapidapi_key with
    | none => ({ success := false, error := some "Spotify download not configured." }, st, 0)
    | some _ =>
      if env.api_status == 200 then
        if env.api_success then
          match env.api_download_link with
          | some _ =>
            if env.file_status == 200 then
              let title := env.api_title.getD "spotify_track"
              let artist := env.api_artist.getD "Unknown"
              let fname := sanitizeFilename (title ++ " - " ++ artist) ++ ".mp3"
              ({ success := true, title := some (title ++ " - " ++ artist),
                 filename := some fname, filepath := some fname,
                 file_size := some env.file_bytes,
                 download_url := some ("/api/file/" ++ fname),
                 platform := some "spotify", media_type := some "audio",
                 quality := some "MP3",
                 remaining_downloads := some (max 0 (20 - (st.download_count : Int))) }, st, 2)
            else
              ({ success := false, error := some "Failed to download Spotify track file" }, st, 2)
          | none =>
            ({ success := false,
               error := some "Could not find download link for this Spotify track" }, st, 1)
        else
          ({ success := false,
             error := some ("Spotify API error: " ++ pyOrStr env.api_error (pyOrStr env.api_message "Unknown error")) }, st, 1)
      else
        ({ success := false,
           error := some ("Failed to connect to Spotify API (Status: " ++ natStr env.api_status ++ ")") }, st, 1)

/-! ## _download_with_yt_dlp failure branch and _process_download_result -/

/-- Bool test: pat is a suffix of l. -/
def endsWithL (pat l : List Char) : Bool :=
  startsWithL pat.reverse l.reverse

/-- The string slice stderr[:500]. -/
def pyTake500 (s : String) : String :=
  ⟨s.data.take 500⟩

/-- Model of the nonzero-exit branch of InvidiousDownloader._download_with_yt_dlp:
truncate stderr to 500 characters, then either map known YouTube auth patterns
to fixed messages or surface the truncated text. -/
def download_error_result (platform : String) (stderr : String) : DLResult :=
  let error_msg := if stderr.data.isEmpty then "Unknown error" else pyTake500 stderr
  let low := pyLower error_msg
  if platform == "youtube" && (strContains low "private" || strContains low "sign in") then
    { success := false,
      error := some "This YouTube video requires authentication. Please make sure you are signed into YouTube in your browser.",
      need_browser_login := true }
  else if platform == "youtube" && strContains low "age restricted" then
    { success := false,
      error := some "This YouTube video is age-restricted. Please sign into YouTube in your browser to access it.",
      need_browser_login := true }
  else
    { success := false, error := some ("Download failed: " ++ error_msg) }

/-- A file of the download directory tree: basename, modification time and
size, listed in os.walk order. -/
structure FileEntry where
  name : String
  mtime : Nat
  size : Nat
  deriving Repr, DecidableEq

/-- Membership of the quality in the audio quality tokens. -/
def audioQuality? (media_type quality : String) : Bool :=
  media_type == "audio" || quality == "bestaudio" || quality == "192" || quality == "128"

/-- Expected file extensions for the media kind. -/
def expected_extensions (media_type quality : String) : List String :=
  if audioQuality? media_type quality then [".mp3", ".m4a", ".aac", ".opus", ".vorbis"]
  else [".mp4", ".mkv", ".webm", ".m4a"]

/-- The quality-derived filename suffix the download command embedded. -/
def quality_suffix (media_type quality : String) : String :=
  if audioQuality? media_type quality then
    (if quality == "bestaudio" then "__audio" else "__" ++ quality)
  else "__" ++ quality

/-- Bool test: the name ends with one of the extensions. -/
def endsWithAny (name : String) (exts : List String) : Bool :=
  exts.any (fun e => endsWithL e.data name.data)

/-- The normalization both sides of the fuzzy title match use: drop spaces and
underscores, lowercase. -/
def normName (s : String) : List Char :=
  lowerL (s.data.filter (fun c => c != ' ' && c != '_'))

/-- First tier of the file location heuristic: quality suffix in the name,
expected extension, modified within 300 seconds. -/
def findTier1 (files : List FileEntry) (suffix : String) (exts : List String)
    (now : Nat) : Option FileEntry :=
  files.find? (fun f =>
    strContains f.name suffix && endsWithAny f.name exts && decide (now - f.mtime < 300))

/-- Second tier: normalized title contained in the normalized name, expected
extension, modified within 300 seconds. -/
def findTier2 (files : List FileEntry) (filename : String) (exts : List String)
    (now : Nat) : Option FileEntry :=
  files.find? (fun f =>
    containsL (normName f.name) (normName filename) && endsWithAny f.name exts
      && decide (now - f.mtime < 300))

/-- Third tier: any file of the right extension created within 60 seconds. -/
def findTier3 (files : List FileEntry) (exts : List String) (now : Nat) : Option FileEntry :=
  files.find? (fun f => endsWithAny f.name exts && decide (now - f.mtime < 60))

/-- The three-tier location heuristic of _process_download_result. -/
def locate_file (files : List FileEntry) (filename : String) (media_type quality : String)
    (now : Nat) : Option FileEntry :=
  let exts := expected_extensions media_type quality
  let suffix := quality_suffix media_type quality
  match findTier1 files suffix exts now with
  | some f => some f
  | none =>
    match findTier2 files filename exts now with
    | some f => some f
    | none => findTier3 files exts now

/-- The success dictionary built for a located file. -/
def locatedResult (filename : String) (f : FileEntry) (platform media_type quality : String) :
    DLResult :=
  { success := true, title := some filename, filename := some f.name,
    filepath := some f.name, file_size := some f.size,
    download_url := some ("/api/file/" ++ f.name),
    platform := some platform, media_type := some media_type,
    quality := some (if media_type == "video" then quality ++ "p" else "MP3") }

/-- The fallback path the code guesses when no file was located. -/
def guessedPath (filename media_type : String) : String :=
  filename ++ (if media_type == "audio" then ".mp3" else ".mp4")

/-- Model of InvidiousDownloader._process_download_result for a zero-exit
download.  infoTitle is the title the dump-json info call produced (none when
that call fails or its output does not parse); files is the directory tree
under base_dir in os.walk order. -/
def process_download_result (infoTitle : Option String) (files : List FileEntry)
    (now : Nat) (platform media_type quality : String) : DLResult :=
  let filename := infoTitle.getD ("video_" ++ platform)
  match locate_file files filename media_type quality now with
  | some f => locatedResult filename f platform media_type quality
  | none =>
    match files.find? (fun f => f.name == guessedPath filename media_type) with
    | some f => locatedResult filename f platform media_type quality
    | none => { success := true, message := some "Download completed", filename := some "video" }

/-! ## Auxiliary definitions used by the verification -/

/-- The expected output of the k-th rate limiter call of a day (post-increment
count k). -/
def rlOutput (k : Nat) : Bool × Int :=
  (decide (spotify_limit_per_day ≤ k), max 0 ((spotify_limit_per_day : Int) - (k : Int)))

/-- The Primary tier wins: the Invidious lookup answered and its parse carries
native direct-url formats (source tag invidious). -/
def primaryResolves (env : ResolveEnv) (vid : String) : Prop :=
  ∃ d, env.primary = some d ∧
    (parse_invidious_response d vid env.ytProbe).source = some "invidious"

/-- The full YouTube fallback chain, in order. -/
def fullChain : List Tier :=
  [Tier.primaryDirect, Tier.secondaryMetadata, Tier.identitySearch, Tier.extractionFallback]

/-- A 600-character stderr payload. -/
def bigStderr : String :=
  ⟨List.replicate 600 'x'⟩

/-- A resolution environment in which every tier fails and the final yt-dlp
probe exits nonzero with a long stderr. -/
def envAllFail : ResolveEnv :=
  { url := "https://youtu.be/dQw4w9WgXcQ",
    fallbackSub := { returncode := 1, stderr := bigStderr } }

/-- A resolution environment whose Invidious response parses but carries no
native stream urls, and whose Piped lookup answers. -/
def envEmptyPrimary : ResolveEnv :=
  { url := "https://youtu.be/dQw4w9WgXcQ",
    primary := some {},
    piped := some { title := some "t" } }

/-! ## Rate limiter lemmas and claims C3, C4, C10 -/

theorem increment_and_check_same_date (d : String) (c : Nat) :
    increment_and_check (some ⟨d, c⟩) d = (rlOutput (c + 1), ⟨d, c + 1⟩) := by
  simp [increment_and_check, load_state, rlOutput]

theorem rlCalls_eq (d : String) : ∀ (n c : Nat),
    rlCalls n ⟨d, c⟩ d = ((List.range n).map (fun i => rlOutput (c + i + 1)), ⟨d, c + n⟩) := by
  intro n
  induction n with
  | zero => intro c; simp [rlCalls]
  | succ n ih =>
    intro c
    rw [List.range_succ_eq_map]
    simp only [rlCalls, increment_and_check_same_date, ih (c + 1), List.map_cons, List.map_map]
    have harith : ∀ a : Nat, c + 1 + a + 1 = c + (a + 1) + 1 := fun a => by omega
    refine Prod.ext ?_ ?_
    · simp [Function.comp, harith]
    · simp only [RLState.mk.injEq]
      exact ⟨trivial, by omega⟩

theorem rlCalls_fst (d : String) (n c : Nat) :
    (rlCalls n ⟨d, c⟩ d).1 = (List.range n).map (fun i => rlOutput (c + i + 1)) := by
  rw [rlCalls_eq]

/-- C3: starting from a persisted count of 0 on one calendar date, the first 19
increment_and_check calls report atLimit false, the 20th reports atLimit true
with remaining 0, the 21st reports atLimit true again; and a call whose
persisted date differs from today leaves the persisted count at exactly 1. -/
theorem c3_rate_limiter_sequence (d d2 : String) (c2 : Nat) (hd : d2 ≠ d) :
    ((rlCalls 21 ⟨d, 0⟩ d).1.take 19).all (fun r => !r.1) = true ∧
    (rlCalls 21 ⟨d, 0⟩ d).1[19]? = some (true, 0) ∧
    (rlCalls 21 ⟨d, 0⟩ d).1[20]? = some (true, 0) ∧
    (increment_and_check (some ⟨d2, c2⟩) d).2 = ⟨d, 1⟩ := by
  rw [rlCalls_fst d 21 0]
  refine ⟨by decide, by decide, by decide, ?_⟩
  simp [increment_and_check, load_state, hd]

theorem c3_rate_limiter_sequence_witness :
    (rlCalls 21 ⟨"2025-06-02", 0⟩ "2025-06-02").1[19]? = some (true, 0) ∧
    (increment_and_check (some ⟨"2025-06-01", 7⟩) "2025-06-02").2 = ⟨"2025-06-02", 1⟩ := by
  have h := c3_rate_limiter_sequence "2025-06-02" "2025-06-01" 7 (by decide)
  exact ⟨h.2.1, h.2.2.2⟩

/-- C4: a Spotify download attempted while the persisted count has already
reached the daily quota is refused with a dedicated rate limit error carrying
remaining 0 and a reset hint, and performs zero outbound HTTP requests. -/
theorem c4_spotify_blocked_at_quota (d : String) (c : Nat) (env : SpotifyEnv)
    (hc : spotify_limit_per_day ≤ c) :
    (download_spotify (some ⟨d, c⟩) d env).1.success = false ∧
    (download_spotify (some ⟨d, c⟩) d env).1.rate_limit_hit = true ∧
    (download_spotify (some ⟨d, c⟩) d env).1.remaining_downloads = some 0 ∧
    (download_spotify (some ⟨d, c⟩) d env).1.resets_at = some (d ++ " 00:00:00 (next day)") ∧
    (download_spotify (some ⟨d, c⟩) d env).1.error
      = some "Spotify rate limit reached (20 downloads per day)" ∧
    (download_spotify (some ⟨d, c⟩) d env).2.2 = 0 := by
  have hlim : spotify_limit_per_day ≤ c + 1 := by omega
  simp [download_spotify, increment_and_check_same_date, rlOutput, hlim]

theorem c4_spotify_blocked_at_quota_witness :
    (download_spotify (some ⟨"2025-06-02", 20⟩) "2025-06-02" {}).1.rate_limit_hit = true ∧
    (download_spotify (some ⟨"2025-06-02", 20⟩) "2025-06-02" {}).2.2 = 0 := by
  have h := c4_spotify_blocked_at_quota "2025-06-02" 20 {} (by decide)
  exact ⟨h.2.1, h.2.2.2.2.2⟩

/-- C10: the tracker increments the persisted count before comparing it with
the cap of 20, a download whose post-increment count reaches 20 is refused as
rate limited, and a download can only succeed when the post-increment count is
at most 19; hence at most 19 Spotify downloads succeed per calendar day and
the 20th attempt of a day is always refused. -/
theorem c10_at_most_19_spotify_successes (d : String) (c : Nat) (env : SpotifyEnv) :
    increment_and_check (some ⟨d, c⟩) d = (rlOutput (c + 1), ⟨d, c + 1⟩) ∧
    (spotify_limit_per_day - 1 ≤ c →
      (download_spotify (some ⟨d, c⟩) d env).1.rate_limit_hit = true ∧
      (download_spotify (some ⟨d, c⟩) d env).1.success = false) ∧
    ((download_spotify (some ⟨d, c⟩) d env).1.success = true →
      c + 1 ≤ spotify_limit_per_day - 1) := by
  refine ⟨increment_and_check_same_date d c, ?_, ?_⟩
  · intro hc
    have hlim : spotify_limit_per_day ≤ c + 1 := by
      simp [spotify_limit_per_day] at hc ⊢
      omega
    simp [download_spotify, increment_and_check_same_date, rlOutput, hlim]
  · intro hsucc
    by_cases hlim : spotify_limit_per_day ≤ c + 1
    · exfalso
      simp [download_spotify, increment_and_check_same_date, rlOutput, hlim] at hsucc
    · simp only [spotify_limit_per_day] at hlim ⊢
      omega

theorem c10_at_most_19_spotify_successes_witness :
    (download_spotify (some ⟨"2025-06-02", 19⟩) "2025-06-02" {}).1.rate_limit_hit = true :=
  ((c10_at_most_19_spotify_successes "2025-06-02" 19 {}).2.1 (by decide)).1

/-! ## Normalizer claims C6, C7 -/

/-- C6 counterexample: on a failed probe, and on zero usable entries, the
normalizer returns the synthesized ten-entry default list, not an empty
sequence, refuting the claim that defaults are never produced. -/
theorem c6_normalizer_defaults_counterexample :
    get_available_formats none = default_formats ∧
    get_available_formats (some []) = default_formats ∧
    default_formats ≠ [] :=
  ⟨rfl, rfl, by decide⟩

/-- C6 amended: whenever the probe fails or yields zero usable entries, the
normalizer returns the fixed default format list; it never returns an empty
sequence. -/
theorem c6_normalizer_defaults_amended :
    get_available_formats none = default_formats ∧
    (∀ l : List RawFmt, buildFormats l = [] → get_available_formats (some l) = default_formats) ∧
    (∀ probe : Option (List RawFmt), get_available_formats probe ≠ []) := by
  refine ⟨rfl, ?_, ?_⟩
  · intro l h
    simp [get_available_formats, h]
  · intro probe
    cases probe with
    | none =>
      simp only [get_available_formats]
      decide
    | some l =>
      simp only [get_available_formats]
      cases hb : (buildFormats l).isEmpty with
      | true =>
        simp only [hb, if_true]
        decide
      | false =>
        simp only [hb, Bool.false_eq_true, if_false]
        intro he
        rw [he] at hb
        simp at hb

theorem c6_normalizer_defaults_amended_witness :
    get_available_formats (some []) = default_formats ∧ get_available_formats none ≠ [] :=
  ⟨c6_normalizer_defaults_amended.2.1 [] rfl, c6_normalizer_defaults_amended.2.2 none⟩

theorem pyOrNat_some_none (s : Nat) : pyOrNat (some s) none = s := by
  by_cases h : s = 0 <;> simp [pyOrNat, h]

theorem scan_rawVid_pair (h s1 s2 : Nat) (c : String) (hh : h ≠ 0) :
    List.foldl scanStep {} [rawVid h c s1, rawVid h c s2] =
      { heights := [(h, [(pyLower c, max s1 s2)])] } := by
  have hb2 : (h != 0) = true := by simp [hh]
  by_cases hlt : s2 > s1
  · have hmax : max s1 s2 = s2 := by omega
    simp +decide [List.foldl, scanStep, rawVid, pyOrNat_some_none, setHeight, setMaxSize,
      hb2, hlt, hmax]
  · have hmax : max s1 s2 = s1 := by omega
    simp +decide [List.foldl, scanStep, rawVid, pyOrNat_some_none, setHeight, setMaxSize,
      hb2, hlt, hmax]

/-- C7 counterexample: two raw entries with the same height 144 and container
and different sizes yield no entry at that height at all (144 is outside the
quality ladder), refuting the claim for arbitrary heights; the input is still
processed (a per-container best entry survives, so the output is nonempty). -/
theorem c7_dedup_counterexample :
    (get_available_formats (some [rawVid 144 "mp4" 100, rawVid 144 "mp4" 250])).filter
        (fun e => e.height == some 144) = [] ∧
    get_available_formats (some [rawVid 144 "mp4" 100, rawVid 144 "mp4" 250]) ≠ [] := by
  constructor <;> decide

/-- C7 amended: for two raw entries with the same height and container but
different sizes, when the height is one of the recognized ladder heights 2160,
1440, 1080, 720, 480 or 360, normalization keeps exactly one entry at that
height, carrying the larger of the two sizes. -/
theorem buildFormats_pair (h s1 s2 : Nat) (c : String) (hh : h ≠ 0) :
    buildFormats [rawVid h c s1, rawVid h c s2] =
      video_entries [(h, [(pyLower c, max s1 s2)])] ++
        best_entries [(h, [(pyLower c, max s1 s2)])] ++ audio_entries false [] := by
  unfold buildFormats
  rw [scan_rawVid_pair h s1 s2 c hh]

theorem c7_dedup_amended (h s1 s2 : Nat) (c : String)
    (hmem : h ∈ [2160, 1440, 1080, 720, 480, 360]) (hne : s1 ≠ s2) :
    ((get_available_formats (some [rawVid h c s1, rawVid h c s2])).filter
        (fun e => e.height == some h)).map (fun e => (e.container, e.filesize)) =
      [(some (pyLower c), JVal.jnum (max s1 s2))] := by
  have hmx : 0 < max s1 s2 := by omega
  simp only [List.mem_cons, List.mem_singleton, List.not_mem_nil, or_false] at hmem
  rcases hmem with rfl | rfl | rfl | rfl | rfl | rfl
  · simp only [get_available_formats]
    rw [buildFormats_pair 2160 s1 s2 c (by decide)]
    simp +decide [video_entries, best_entries, audio_entries, allContainers, dedupFirst,
      dedupFirstAux, best_size, lookupC, lookupHeight, quality_options, sizeJ, hmx]
  · simp only [get_available_formats]
    rw [buildFormats_pair 1440 s1 s2 c (by decide)]
    simp +decide [video_entries, best_entries, audio_entries, allContainers, dedupFirst,
      dedupFirstAux, best_size, lookupC, lookupHeight, quality_options, sizeJ, hmx]
  · simp only [get_available_formats]
    rw [buildFormats_pair 1080 s1 s2 c (by decide)]
    simp +decide [video_entries, best_entries, audio_entries, allContainers, dedupFirst,
      dedupFirstAux, best_size, lookupC, lookupHeight, quality_options, sizeJ, hmx]
  · simp only [get_available_formats]
    rw [buildFormats_pair 720 s1 s2 c (by decide)]
    simp +decide [video_entries, best_entries, audio_entries, allContainers, dedupFirst,
      dedupFirstAux, best_size, lookupC, lookupHeight, quality_options, sizeJ, hmx]
  · simp only [get_available_formats]
    rw [buildFormats_pair 480 s1 s2 c (by decide)]
    simp +decide [video_entries, best_entries, audio_entries, allContainers, dedupFirst,
      dedupFirstAux, best_size, lookupC, lookupHeight, quality_options, sizeJ, hmx]
  · simp only [get_available_formats]
    rw [buildFormats_pair 360 s1 s2 c (by decide)]
    simp +decide [video_entries, best_entries, audio_entries, allContainers, dedupFirst,
      dedupFirstAux, best_size, lookupC, lookupHeight, quality_options, sizeJ, hmx]

theorem c7_dedup_amended_witness :
    ((get_available_formats (some [rawVid 720 "mp4" 100, rawVid 720 "mp4" 250])).filter
        (fun e => e.height == some 720)).map (fun e => (e.container, e.filesize)) =
      [(some (pyLower "mp4"), JVal.jnum (max 100 250))] :=
  c7_dedup_amended 720 100 250 "mp4" (by decide) (by decide)

/-! ## Claim C9 -/

/-- C9: when the three-tier filename heuristic locates no file and the guessed
fallback path does not exist either, the zero-exit download still reports
success with a minimal result carrying no size, rather than a hard failure. -/
theorem c9_unlocated_soft_success (infoTitle : Option String) (files : List FileEntry)
    (now : Nat) (platform media_type quality : String)
    (hloc : locate_file files (infoTitle.getD ("video_" ++ platform)) media_type quality now = none)
    (hex : files.find? (fun f =>
        f.name == guessedPath (infoTitle.getD ("video_" ++ platform)) media_type) = none) :
    process_download_result infoTitle files now platform media_type quality =
      { success := true, message := some "Download completed", filename := some "video" } := by
  simp [process_download_result, hloc, hex]

theorem c9_unlocated_soft_success_witness :
    process_download_result none [] 0 "youtube" "video" "720" =
      { success := true, message := some "Download completed", filename := some "video" } :=
  c9_unlocated_soft_success none [] 0 "youtube" "video" "720" rfl rfl

/-! ## Claim C5 -/

/-- C5: the extractor returns the ID for the watch and youtu.be shapes and is
total on malformed input, but for the youtube.com shorts shape the first branch
catches the youtube.com netloc and returns the absent v query parameter: the
code yields none where the claim requires the ID, leaving the documented
shorts branch dead for youtube.com hosts. -/
theorem c5_shorts_extraction_bug :
    extract_video_id "https://www.youtube.com/watch?v=dQw4w9WgXcQ" = some "dQw4w9WgXcQ" ∧
    extract_video_id "https://youtu.be/dQw4w9WgXcQ" = some "dQw4w9WgXcQ" ∧
    extract_video_id "https://www.youtube.com/shorts/dQw4w9WgXcQ" = none ∧
    extract_video_id "not a url at all" = none :=
  ⟨by decide, by decide, by decide, by decide⟩

/-! ## Orchestrator lemmas and claims C1, C2 -/

theorem parse_invidious_response_success (d : InvData) (v : String)
    (p : Option (List RawFmt)) : (parse_invidious_response d v p).success = true := by
  simp only [parse_invidious_response]
  split <;> rfl

theorem parse_piped_response_source (d : PipedData) (v : String)
    (p : Option (List RawFmt)) : (parse_piped_response d v p).source = some "piped" := rfl

theorem get_fallback_info_source_ne_invidious (r : SubprocResult) (pd : Option YtdlpInfo)
    (p : Option (List RawFmt)) (v : String) :
    (get_fallback_info r pd p v).source ≠ some "invidious" := by
  simp only [get_fallback_info]
  split
  · split
    · simp
    · split
      · simp
      · split <;> simp +decide
  · simp

theorem search_result_source (t : Option String) (sf : Option InvData) (v : String)
    (p : Option (List RawFmt)) (r : VideoInfo)
    (hr : search_invidious_by_title t sf v p = some r) :
    r.source = some "invidious-search" := by
  unfold search_invidious_by_title at hr
  cases t with
  | none => simp at hr
  | some t0 =>
    cases sf with
    | none => simp at hr
    | some d =>
      simp only [parse_invidious_response_success, if_true, Option.some.injEq] at hr
      rw [← hr]

theorem pyTruthy_getD_ne (o : Option String) (h : pyTruthy o = true) : o.getD "" ≠ "" := by
  cases o with
  | none => simp [pyTruthy] at h
  | some s =>
    simp only [Option.getD]
    intro he
    rw [he] at h
    exact absurd h (by decide)

theorem invNativeFormats_url_ne (d : InvData) : ∀ f ∈ invNativeFormats d, f.url ≠ "" := by
  intro f hf
  simp only [invNativeFormats, List.mem_append, List.mem_filterMap] at hf
  rcases hf with ⟨s, -, hs⟩ | ⟨s, -, hs⟩
  · unfold inv_video_fmt at hs
    split at hs
    next hcond =>
      rw [Bool.and_eq_true] at hcond
      injection hs with h2
      rw [← h2]
      exact pyTruthy_getD_ne s.url hcond.2
    next => exact absurd hs (by simp)
  · unfold inv_audio_fmt at hs
    split at hs
    next hcond =>
      rw [Bool.and_eq_true] at hcond
      injection hs with h2
      rw [← h2]
      exact pyTruthy_getD_ne s.url hcond.2
    next => exact absurd hs (by simp)

theorem get_video_info_miss_primary (env : ResolveEnv) (vid : String)
    (hyt : detect_platform env.url = "youtube")
    (hvid : pyTruthy (extract_video_id env.url) = true)
    (hv : (extract_video_id env.url).getD "" = vid)
    (hnp : ¬ primaryResolves env vid) :
    get_video_info env = try_piped_onward env vid := by
  subst hv
  rcases hp : env.primary with _ | d
  · simp [get_video_info, hyt, hvid, hp]
  · have hne : (parse_invidious_response d ((extract_video_id env.url).getD "") env.ytProbe).source
        ≠ some "invidious" := fun hs => hnp ⟨d, hp, hs⟩
    simp [get_video_info, hyt, hvid, hp, hne]

theorem tiersAttempted_miss_primary (env : ResolveEnv) (vid : String)
    (hyt : detect_platform env.url = "youtube")
    (hvid : pyTruthy (extract_video_id env.url) = true)
    (hv : (extract_video_id env.url).getD "" = vid)
    (hnp : ¬ primaryResolves env vid) :
    tiersAttempted env =
      (if env.piped.isSome then [Tier.primaryDirect, Tier.secondaryMetadata]
       else if (search_invidious_by_title env.searchTitle env.searchFound vid env.ytProbe).isSome
       then [Tier.primaryDirect, Tier.secondaryMetadata, Tier.identitySearch]
       else fullChain) := by
  subst hv
  rcases hp : env.primary with _ | d
  · simp [tiersAttempted, hyt, hvid, hp, fullChain]
  · have hne : (parse_invidious_response d ((extract_video_id env.url).getD "") env.ytProbe).source
        ≠ some "invidious" := fun hs => hnp ⟨d, hp, hs⟩
    simp [tiersAttempted, hyt, hvid, hp, hne, fullChain]

/-- C1: for a YouTube url with a truthy native id, get_video_info consults the
tiers Invidious direct fetch, Piped metadata, Invidious identity search and
yt-dlp extraction fallback in this order and only ever a prefix of it; the
first tier that resolves supplies the returned result and no later tier is
consulted; and when every tier is consulted and the final extraction fallback
fails, the call returns a failure result. -/
theorem c1_tier_order_first_success (env : ResolveEnv) (vid : String)
    (hyt : detect_platform env.url = "youtube")
    (hvid : pyTruthy (extract_video_id env.url) = true)
    (hv : (extract_video_id env.url).getD "" = vid) :
    tiersAttempted env <+: fullChain ∧
    (∀ d, env.primary = some d →
      (parse_invidious_response d vid env.ytProbe).source = some "invidious" →
      get_video_info env = parse_invidious_response d vid env.ytProbe ∧
      tiersAttempted env = [Tier.primaryDirect]) ∧
    (¬ primaryResolves env vid →
      (∀ p, env.piped = some p →
        get_video_info env = parse_piped_response p vid env.ytProbe ∧
        tiersAttempted env = [Tier.primaryDirect, Tier.secondaryMetadata]) ∧
      (env.piped = none →
        (∀ r, search_invidious_by_title env.searchTitle env.searchFound vid env.ytProbe = some r →
          get_video_info env = r ∧
          tiersAttempted env = [Tier.primaryDirect, Tier.secondaryMetadata, Tier.identitySearch]) ∧
        (search_invidious_by_title env.searchTitle env.searchFound vid env.ytProbe = none →
          get_video_info env
            = get_fallback_info env.fallbackSub env.fallbackParsed env.ytProbe vid ∧
          tiersAttempted env = fullChain ∧
          ((get_fallback_info env.fallbackSub env.fallbackParsed env.ytProbe vid).success = false →
            (get_video_info env).success = false)))) := by
  refine ⟨?_, ?_, ?_⟩
  · simp only [tiersAttempted, hyt, hvid, beq_self_eq_true, if_true]
    split
    · decide
    · split
      · decide
      · split <;> decide
  · intro d hp hsrc
    subst hv
    constructor
    · simp [get_video_info, hyt, hvid, hp, hsrc]
    · simp [tiersAttempted, hyt, hvid, hp, hsrc]
  · intro hnp
    have hred := get_video_info_miss_primary env vid hyt hvid hv hnp
    have htrd := tiersAttempted_miss_primary env vid hyt hvid hv hnp
    refine ⟨?_, ?_⟩
    · intro p hpip
      constructor
      · rw [hred]
        simp [try_piped_onward, hpip, hv]
      · rw [htrd, hpip]
        rfl
    · intro hpipn
      refine ⟨?_, ?_⟩
      · intro r hsr
        constructor
        · rw [hred]
          simp [try_piped_onward, hpipn, hsr]
        · rw [htrd, hpipn, hsr]
          rfl
      · intro hsn
        have hres : get_video_info env
            = get_fallback_info env.fallbackSub env.fallbackParsed env.ytProbe vid := by
          rw [hred]
          simp [try_piped_onward, hpipn, hsn]
        refine ⟨hres, ?_, ?_⟩
        · rw [htrd, hpipn, hsn]
          rfl
        · intro hfail
          rw [hres]
          exact hfail

theorem c1_tier_order_first_success_witness :
    tiersAttempted envAllFail = fullChain ∧ (get_video_info envAllFail).success = false := by
  have h := c1_tier_order_first_success envAllFail "dQw4w9WgXcQ" (by decide) (by decide) (by decide)
  have hnp : ¬ primaryResolves envAllFail "dQw4w9WgXcQ" := by
    rintro ⟨d, hd, -⟩
    simp [envAllFail] at hd
  have h4 := (h.2.2 hnp).2 rfl
  have h5 := h4.2 rfl
  refine ⟨h5.2.1, h5.2.2 ?_⟩
  decide

/-- C2: when the Invidious response parses but normalization yields no format
carrying a direct url, the orchestrator does not return it as a primary-direct
success: the secondary tier is consulted and the final result never carries the
invidious source tag; moreover every native format the parser keeps carries a
nonempty direct url, so an invidious-tagged result always has direct urls. -/
theorem c2_empty_primary_falls_through (env : ResolveEnv) (d : InvData) (vid : String)
    (hyt : detect_platform env.url = "youtube")
    (hvid : pyTruthy (extract_video_id env.url) = true)
    (hv : (extract_video_id env.url).getD "" = vid)
    (hp : env.primary = some d)
    (hempty : invNativeFormats d = []) :
    Tier.secondaryMetadata ∈ tiersAttempted env ∧
    (get_video_info env).source ≠ some "invidious" ∧
    (∀ d2 : InvData, ∀ f ∈ invNativeFormats d2, f.url ≠ "") := by
  have hsrc : (parse_invidious_response d vid env.ytProbe).source = some "yt-dlp" := by
    simp [parse_invidious_response, hempty]
  have hnp : ¬ primaryResolves env vid := by
    rintro ⟨d2, hd2, hs2⟩
    rw [hp] at hd2
    injection hd2 with hd2
    rw [← hd2] at hs2
    rw [hsrc] at hs2
    exact absurd hs2 (by decide)
  have hred := get_video_info_miss_primary env vid hyt hvid hv hnp
  have htrd := tiersAttempted_miss_primary env vid hyt hvid hv hnp
  refine ⟨?_, ?_, fun d2 => invNativeFormats_url_ne d2⟩
  · rw [htrd]
    split
    · decide
    · split
      · decide
      · decide
  · rw [hred]
    unfold try_piped_onward
    rcases hpip : env.piped with _ | p
    · rcases hsr : search_invidious_by_title env.searchTitle env.searchFound vid env.ytProbe
        with _ | r
      · exact get_fallback_info_source_ne_invidious _ _ _ _
      · have := search_result_source env.searchTitle env.searchFound vid env.ytProbe r hsr
        rw [this]
        decide
    · rw [parse_piped_response_source]
      decide

theorem c2_empty_primary_falls_through_witness :
    Tier.secondaryMetadata ∈ tiersAttempted envEmptyPrimary ∧
    (get_video_info envEmptyPrimary).source ≠ some "invidious" := by
  have h := c2_empty_primary_falls_through envEmptyPrimary {} "dQw4w9WgXcQ"
    (by decide) (by decide) (by decide) (by simp [envEmptyPrimary]) rfl
  exact ⟨h.1, h.2.1⟩

/-! ## Claim C8 -/

set_option maxRecDepth 40000 in
/-- C8 counterexample: an all-tiers-failed resolution whose final yt-dlp probe
exits nonzero with a 600-character stderr returns that stderr verbatim and
untruncated as the caller-facing error text. -/
theorem c8_stderr_leak_counterexample :
    (get_video_info envAllFail).error = some bigStderr ∧
    (get_video_info envAllFail).success = false ∧
    bigStderr.length = 600 := by
  refine ⟨by decide, by decide, by decide⟩

/-- C8 amended: the yt-dlp download failure path surfaces at most 500
characters of stderr (or one of the fixed authentication messages), and the
generic platform info path surfaces a fixed message independent of stderr; but
the YouTube info fallback path returns stripped stderr verbatim without a
truncation cap (see the counterexample). -/
theorem c8_stderr_truncation_amended (platform stderr p2 : String) (r : SubprocResult)
    (hr : r.returncode ≠ 0) :
    ((download_error_result platform stderr).error
        = some ("Download failed: " ++ pyTake500 stderr) ∨
      (download_error_result platform stderr).error = some "Download failed: Unknown error" ∨
      (download_error_result platform stderr).need_browser_login = true) ∧
    (pyTake500 stderr).length ≤ 500 ∧
    (get_generic_platform_info "url" p2 r none none).error
      = some ("Unable to access this " ++ p2
          ++ " content. It may be private, deleted, or require authentication.") := by
  refine ⟨?_, ?_, ?_⟩
  · simp only [download_error_result]
    split_ifs <;>
      first
      | exact Or.inr (Or.inr rfl)
      | exact Or.inr (Or.inl rfl)
      | exact Or.inl rfl
  · show (stderr.data.take 500).length ≤ 500
    simp [List.length_take]
  · simp [get_generic_platform_info, hr]

theorem c8_stderr_truncation_amended_witness :
    ((download_error_result "tiktok" "boom").error
        = some ("Download failed: " ++ pyTake500 "boom") ∨
      (download_error_result "tiktok" "boom").error = some "Download failed: Unknown error" ∨
      (download_error_result "tiktok" "boom").need_browser_login = true) ∧
    (pyTake500 "boom").length ≤ 500 ∧
    (get_generic_platform_info "url" "tiktok" { returncode := 1 } none none).error
      = some ("Unable to access this " ++ "tiktok"
          ++ " content. It may be private, deleted, or require authentication.") :=
  c8_stderr_truncation_amended "tiktok" "boom" "tiktok" { returncode := 1 } (by decide)
